import Mathlib

/-!
Verification of the mode/temperature decision engine of `hypr-blue-light.py`
(an automatic blue-light filter for Hyprland).

The embedding models the pure decision logic and the state-transition
behaviour of `ScreenLightManager`.  File-system and process side effects are
made explicit as an event trace:

* `Event.load`      — a `load_state()` call re-reading the state file;
* `Event.save s`    — a `save_state()` call writing record `s`;
* `Event.applier t` — entering `apply_temperature(t)`, i.e. the attempt to
  kill the previous `hyprsunset` process and launch a new one at `t` Kelvin;
* `Event.notify m`  — a `notify()` desktop notification;
* `Event.echo m`    — a `print()` to stdout.

External failure modes are abstracted as booleans/options:

* `ok : Bool`               — whether `subprocess.Popen(['hyprsunset', ...])`
  launches (`False` models the `FileNotFoundError` path);
* `weather : Option Weather` — the result of `get_weather()` (`none` models
  "no cached or live data");
* `StateFileContent`        — what reading + JSON-parsing the state file gives.

Logging (`self.log`) is pure append-only diagnostics and is not modelled.
-/

namespace HyprBlueLight

/-- The persisted record in `state.json`:
`{'manual': bool, 'bluelight': bool, 'last_temp': int}`. -/
structure PersistedState where
  manual : Bool
  bluelight : Bool
  last_temp : Int
deriving DecidableEq, Repr

/-- The default record installed by `load_state` when the file is missing or
invalid (source lines 77–81 and 85–89). -/
def default_state : PersistedState :=
  { manual := false, bluelight := false, last_temp := 4500 }

/-- The fields of a weather payload that `calculate_temperature` reads:
`weather['weather'][0]['main']` (condition category) and
`weather['main']['temp']` (ambient °C).  The ambient temperature is a JSON
number; it is modelled as a rational, which agrees with IEEE-754 doubles on
every comparison this program makes (`temp < 5`). -/
structure Weather where
  main : String
  temp : ℚ
deriving DecidableEq

/-- Observable side effects of an operation, in program order. -/
inductive Event where
  | load
  | save (s : PersistedState)
  | applier (t : Int)
  | notify (msg : String)
  | echo (msg : String)
deriving DecidableEq, Repr

/-- `TEMPERATURE_PROFILE` dict (source lines 24–34). -/
def TEMPERATURE_PROFILE : String → Int
  | "DAY_CLEAR" => 6500
  | "DAY_CLOUDY" => 5800
  | "DAY_RAINY" => 5200
  | "NIGHT_DEFAULT" => 4200
  | "NIGHT_COLD" => 3800
  | "BLUELIGHT_OFF" => 6500
  | "BLUELIGHT_ON" => 4000
  | "MANUAL_ON" => 5000
  | "MANUAL_OFF" => 6500
  | _ => 0

/-- What reading and JSON-parsing `state.json` yields.
`missing` is the `FileNotFoundError` path, `malformed` the
`json.JSONDecodeError` (or any other read error) path, `valid s` a
successfully parsed record.  (Valid JSON of a different shape would be loaded
as-is by the source; no claim depends on that case, so it is not a
constructor here.) -/
inductive StateFileContent where
  | missing
  | malformed
  | valid (s : PersistedState)
deriving DecidableEq

/-- `load_state` (source lines 71–89): on success the parsed record becomes
`self.state`; on `FileNotFoundError`/`JSONDecodeError` — and on any other
exception — `self.state` is set to the default record.  No branch calls
`save_state`, so the trace never contains a `save` event. -/
def load_state : StateFileContent → PersistedState × List Event
  | .valid s => (s, [])
  | .missing => (default_state, [])
  | .malformed => (default_state, [])

/-- `calculate_temperature` (source lines 225–252).  `hour` is
`datetime.now(timezone.utc).hour`; `weather` is the `get_weather()` result.
The `if self.state['bluelight']: pass` branch (lines 230–233) reads the state
but changes nothing, so `st` is an unused parameter, exactly as in the
source. -/
def calculate_temperature (_st : PersistedState) (hour : Nat)
    (weather : Option Weather) : Int :=
  let is_night : Bool := hour < 6 || 20 ≤ hour
  match weather with
  | none =>
      if is_night then TEMPERATURE_PROFILE "NIGHT_DEFAULT"
      else TEMPERATURE_PROFILE "DAY_CLEAR"
  | some w =>
      if is_night then
        if ["Rain", "Drizzle", "Thunderstorm"].contains w.main then
          TEMPERATURE_PROFILE "NIGHT_COLD"
        else if w.temp < 5 then TEMPERATURE_PROFILE "NIGHT_COLD"
        else TEMPERATURE_PROFILE "NIGHT_DEFAULT"
      else
        if w.main = "Clear" then TEMPERATURE_PROFILE "DAY_CLEAR"
        else if ["Rain", "Drizzle", "Thunderstorm"].contains w.main then
          TEMPERATURE_PROFILE "DAY_RAINY"
        else TEMPERATURE_PROFILE "DAY_CLOUDY"

/-- `apply_temperature` (source lines 255–279).  It always kills prior
`hyprsunset` instances and attempts to launch a new one (the `applier`
event).  Only when the launch succeeds (`ok = true`) does it record
`last_temp := temp`, save the state and notify success; on
`FileNotFoundError` (`ok = false`) it leaves the state untouched and only
notifies the error. -/
def apply_temperature (ok : Bool) (temp : Int) (st : PersistedState) :
    PersistedState × List Event :=
  if ok then
    let st1 := { st with last_temp := temp }
    (st1, [.applier temp, .save st1,
           .notify ("Screen temperature set to " ++ toString temp ++ "K")])
  else
    (st, [.applier temp,
          .notify "Error: hyprsunset not installed or not in PATH"])

/-- `toggle_bluelight` (source lines 282–291): rejected with a notification
in automatic mode; in manual mode flips the `bluelight` flag, applies
`MANUAL_ON`/`MANUAL_OFF`, saves and notifies the new status. -/
def toggle_bluelight (ok : Bool) (st : PersistedState) :
    PersistedState × List Event :=
  if st.manual = false then
    (st, [.notify "Cannot toggle blue light filter in automatic mode. Switch to manual mode first."])
  else
    let st1 := { st with bluelight := !st.bluelight }
    let temp := if st1.bluelight then TEMPERATURE_PROFILE "MANUAL_ON"
                else TEMPERATURE_PROFILE "MANUAL_OFF"
    let r := apply_temperature ok temp st1
    let status := if r.1.bluelight then "ON (5000K)" else "OFF (6500K)"
    (r.1, r.2 ++ [.save r.1, .notify ("Blue light filter toggled " ++ status)])

/-- `update_temperature` (source lines 348–355), the reconcile operation:
in automatic mode, compute the target and apply it only when it differs
from `last_temp`; in manual mode do nothing. -/
def update_temperature (ok : Bool) (hour : Nat) (weather : Option Weather)
    (st : PersistedState) : PersistedState × List Event :=
  if st.manual = false then
    let new_temp := calculate_temperature st hour weather
    if new_temp ≠ st.last_temp then apply_temperature ok new_temp st
    else (st, [])
  else (st, [])

/-- `toggle_manual_mode` (source lines 294–321): reloads the state file
first, then flips the mode.  To automatic: clear both flags, save, notify,
reconcile.  To manual: set `manual`, clear `bluelight`, save, apply the
neutral `MANUAL_OFF` temperature, notify. -/
def toggle_manual_mode (ok : Bool) (hour : Nat) (weather : Option Weather)
    (file : StateFileContent) : PersistedState × List Event :=
  let st := (load_state file).1
  if st.manual then
    let st1 := { st with manual := false, bluelight := false }
    let r := update_temperature ok hour weather st1
    (r.1, [.load, .save st1, .notify "Switched to automatic mode"] ++ r.2)
  else
    let st1 := { st with manual := true, bluelight := false }
    let r := apply_temperature ok (TEMPERATURE_PROFILE "MANUAL_OFF") st1
    (r.1, [.load, .save st1] ++ r.2 ++
      [.notify "Switched to manual mode - screen set to neutral (6500K)"])

/-- `toggle_auto_mode` (source lines 324–334): if manual, clear both flags,
save, notify and reconcile; otherwise only notify (no reload, no save). -/
def toggle_auto_mode (ok : Bool) (hour : Nat) (weather : Option Weather)
    (st : PersistedState) : PersistedState × List Event :=
  if st.manual then
    let st1 := { st with manual := false, bluelight := false }
    let r := update_temperature ok hour weather st1
    (r.1, [.save st1, .notify "Switched to automatic mode"] ++ r.2)
  else
    (st, [.notify "Already in automatic mode"])

/-- `force_manual_mode` (source lines 336–345): if automatic, set `manual`,
clear `bluelight`, apply neutral, save, notify; otherwise only notify. -/
def force_manual_mode (ok : Bool) (st : PersistedState) :
    PersistedState × List Event :=
  if st.manual = false then
    let st1 := { st with manual := true, bluelight := false }
    let r := apply_temperature ok (TEMPERATURE_PROFILE "MANUAL_OFF") st1
    (r.1, r.2 ++ [.save r.1,
      .notify "Switched to manual mode - screen set to neutral (6500K)"])
  else
    (st, [.notify "Already in manual mode"])

/-- The `__main__` command dispatch (source lines 460–493) for an invocation
with at least one argument.  `cmd` is `sys.argv[1].lower()` — the source
lower-cases the argument once before comparing, so the dispatch is modelled
on the lower-cased string.  `argv2` models `sys.argv[2]` for the `test`
command: `none` when absent, `some none` when present but `int()` raises
`ValueError`, `some (some t)` when it parses to `t`.  The returned `Nat`
is the process exit code: no branch calls `sys.exit`, so every branch
falls off the end of the script and exits 0.  (`refresh-location` also
rewrites coordinate cache files and `status` prints a report; neither
touches the state record, and those side effects are outside the modelled
events.) -/
def dispatch (ok : Bool) (hour : Nat) (weather : Option Weather)
    (file : StateFileContent) (cmd : String) (argv2 : Option (Option Int))
    (st : PersistedState) : PersistedState × List Event × Nat :=
  if cmd = "toggle" then
    let r := toggle_bluelight ok st; (r.1, r.2, 0)
  else if cmd = "manual" then
    let r := toggle_manual_mode ok hour weather file; (r.1, r.2, 0)
  else if cmd = "auto" then
    let r := toggle_auto_mode ok hour weather st; (r.1, r.2, 0)
  else if cmd = "force-manual" then
    let r := force_manual_mode ok st; (r.1, r.2, 0)
  else if cmd = "refresh-location" then
    (st, [.echo "Location data refreshed"], 0)
  else if cmd = "test" then
    match argv2 with
    | some (some t) => let r := apply_temperature ok t st; (r.1, r.2, 0)
    | some none => (st, [.echo "Invalid temperature value"], 0)
    | none => (st, [.echo "Usage: ./blue-light.py test <temperature>"], 0)
  else if cmd = "status" then
    let r := load_state file
    (r.1, [.load], 0)
  else
    (st, [.echo "Usage: ./blue-light.py [toggle|manual|auto|force-manual|refresh-location|test <temp>|status]"], 0)

/-- The temperature table exactly as the spec words it (§4.2): night is
`hour < 6 ∨ hour ≥ 20`; with weather, night prefers rainy conditions, then
the `< 5 °C` cold rule; day maps Clear / rainy / other; without weather,
a fixed default per period.  Written from the spec for comparison with
`calculate_temperature`. -/
def decider_spec (hour : Nat) (weather : Option Weather) : Int :=
  match weather with
  | some w =>
      if hour < 6 ∨ 20 ≤ hour then
        if w.main = "Rain" ∨ w.main = "Drizzle" ∨ w.main = "Thunderstorm" then 3800
        else if w.temp < 5 then 3800
        else 4200
      else
        if w.main = "Clear" then 6500
        else if w.main = "Rain" ∨ w.main = "Drizzle" ∨ w.main = "Thunderstorm" then 5200
        else 5800
  | none => if hour < 6 ∨ 20 ≤ hour then 4200 else 6500

/-- Membership in the rainy list is the disjunction of the three equalities. -/
theorem mem_rainy (s : String) :
    (["Rain", "Drizzle", "Thunderstorm"].contains s = true) ↔
      (s = "Rain" ∨ s = "Drizzle" ∨ s = "Thunderstorm") := by
  simp [List.contains]

/-- C1: the temperature decider returns exactly the spec's table, for every
state, hour and weather input. -/
theorem calculate_temperature_matches_spec (st : PersistedState) (hour : Nat)
    (weather : Option Weather) :
    calculate_temperature st hour weather = decider_spec hour weather := by
  cases weather with
  | none =>
      by_cases hn : hour < 6 ∨ 20 ≤ hour <;>
        simp [calculate_temperature, decider_spec, hn, TEMPERATURE_PROFILE]
  | some w =>
      by_cases hn : hour < 6 ∨ 20 ≤ hour <;>
      by_cases hr : w.main = "Rain" ∨ w.main = "Drizzle" ∨ w.main = "Thunderstorm" <;>
      by_cases hc : w.main = "Clear" <;>
      by_cases ht : w.temp < 5 <;>
        simp [calculate_temperature, decider_spec, hn, hr, hc, ht, mem_rainy,
          TEMPERATURE_PROFILE]

/-- C7: at night with condition Clear, ambient 4.9 °C decides 3800 K and
ambient exactly 5.0 °C decides 4200 K — the cold rule is the strict `< 5`. -/
theorem night_cold_boundary (st : PersistedState) (hour : Nat)
    (h : hour < 6 ∨ 20 ≤ hour) :
    calculate_temperature st hour (some ⟨"Clear", 49 / 10⟩) = 3800 ∧
    calculate_temperature st hour (some ⟨"Clear", 5⟩) = 4200 := by
  have h1 : ((49 : ℚ) / 10) < 5 := by norm_num
  have h2 : ¬((5 : ℚ) < 5) := by norm_num
  refine ⟨?_, ?_⟩ <;>
    simp [calculate_temperature, h, h1, h2, TEMPERATURE_PROFILE, List.contains]

/-- Witness for C7 at hour 22. -/
theorem night_cold_boundary_witness :
    calculate_temperature default_state 22 (some ⟨"Clear", 49 / 10⟩) = 3800 ∧
    calculate_temperature default_state 22 (some ⟨"Clear", 5⟩) = 4200 :=
  night_cold_boundary default_state 22 (by decide)

/-- C2 counterexample: the claim says `load()` also persists the default
record back to the state file, but on malformed content `load_state`
returns the default with an empty trace — in particular no save of the
default record ever happens. -/
theorem load_state_counterexample :
    (load_state .malformed).1 = default_state ∧
    Event.save default_state ∉ (load_state .malformed).2 := by
  refine ⟨rfl, ?_⟩
  simp [load_state]

/-- C2 (amended): for missing or malformed state-file content, `load_state`
returns the default record `{manual := false, bluelight := false,
last_temp := 4500}` without raising, and performs no writes — it does not
persist the default back to the state file. -/
theorem load_state_default (c : StateFileContent)
    (h : c = .missing ∨ c = .malformed) :
    load_state c = (default_state, []) := by
  rcases h with h | h <;> subst h <;> rfl

/-- Witness for C2's amended theorem at malformed content. -/
theorem load_state_default_witness :
    load_state .malformed = (default_state, []) :=
  load_state_default .malformed (Or.inr rfl)

/-- C3 counterexample: `toggle_bluelight` in manual mode (its state-changing
path) never emits a `load` event — it does not begin by reloading the
persisted state, contradicting the claim that every mode-changing
operation does. -/
theorem toggle_bluelight_no_reload :
    Event.load ∉ (toggle_bluelight true ⟨true, false, 4500⟩).2 := by
  simp [toggle_bluelight, apply_temperature, TEMPERATURE_PROFILE]

/-- C3 (amended): only `toggle_manual_mode` begins by reloading the state
file; `toggle_bluelight`, `toggle_auto_mode`, `force_manual_mode` and
`update_temperature` never reload and act on the in-memory record.  Every
branch that modifies the record does persist the final state (and the
rejected / already-in-mode / unchanged-temperature branches write
nothing, as they change nothing). -/
theorem reload_and_persist_discipline :
    (∀ ok hour w file,
      ((toggle_manual_mode ok hour w file).2).head? = some Event.load) ∧
    (∀ ok st, Event.load ∉ (toggle_bluelight ok st).2) ∧
    (∀ ok hour w st, Event.load ∉ (toggle_auto_mode ok hour w st).2) ∧
    (∀ ok st, Event.load ∉ (force_manual_mode ok st).2) ∧
    (∀ ok hour w st, Event.load ∉ (update_temperature ok hour w st).2) ∧
    (∀ ok st, st.manual = true →
      Event.save (toggle_bluelight ok st).1 ∈ (toggle_bluelight ok st).2) ∧
    (∀ ok hour w file,
      Event.save (toggle_manual_mode ok hour w file).1 ∈
        (toggle_manual_mode ok hour w file).2) ∧
    (∀ ok hour w st, st.manual = true →
      Event.save (toggle_auto_mode ok hour w st).1 ∈
        (toggle_auto_mode ok hour w st).2) ∧
    (∀ ok st, st.manual = false →
      Event.save (force_manual_mode ok st).1 ∈ (force_manual_mode ok st).2) ∧
    (∀ ok st, st.manual = false →
      ∀ s, Event.save s ∉ (toggle_bluelight ok st).2) ∧
    (∀ ok hour w st, st.manual = false →
      ∀ s, Event.save s ∉ (toggle_auto_mode ok hour w st).2) ∧
    (∀ ok st, st.manual = true →
      ∀ s, Event.save s ∉ (force_manual_mode ok st).2) ∧
    (∀ ok hour w st,
      st.manual = true ∨ calculate_temperature st hour w = st.last_temp →
      (update_temperature ok hour w st).2 = []) ∧
    (∀ ok hour w st, (update_temperature ok hour w st).1 ≠ st →
      Event.save (update_temperature ok hour w st).1 ∈
        (update_temperature ok hour w st).2) := by
  refine ⟨?_, ?_, ?_, ?_, ?_, ?_, ?_, ?_, ?_, ?_, ?_, ?_, ?_, ?_⟩
  · intro ok hour w file
    by_cases hm : ((load_state file).1).manual <;>
      simp [toggle_manual_mode, hm]
  · intro ok st
    by_cases hm : st.manual = false <;> cases ok <;>
      simp [toggle_bluelight, apply_temperature, hm]
  · intro ok hour w st
    by_cases hm : st.manual <;>
      by_cases he : calculate_temperature { st with manual := false, bluelight := false } hour w =
        st.last_temp <;> cases ok <;>
      simp [toggle_auto_mode, update_temperature, apply_temperature, hm, he]
  · intro ok st
    by_cases hm : st.manual = false <;> cases ok <;>
      simp [force_manual_mode, apply_temperature, hm]
  · intro ok hour w st
    by_cases hm : st.manual = false <;>
      by_cases he : calculate_temperature st hour w = st.last_temp <;> cases ok <;>
      simp [update_temperature, apply_temperature, hm, he]
  · intro ok st hm
    cases ok <;> simp [toggle_bluelight, apply_temperature, hm]
  · intro ok hour w file
    by_cases hm : ((load_state file).1).manual
    · by_cases he : calculate_temperature
          { (load_state file).1 with manual := false, bluelight := false } hour w =
          ((load_state file).1).last_temp <;> cases ok <;>
        simp [toggle_manual_mode, hm, update_temperature, apply_temperature, he]
    · cases ok <;> simp [toggle_manual_mode, hm, apply_temperature]
  · intro ok hour w st hm
    by_cases he : calculate_temperature { st with manual := false, bluelight := false } hour w =
      st.last_temp <;> cases ok <;>
      simp [toggle_auto_mode, update_temperature, apply_temperature, hm, he]
  · intro ok st hm
    cases ok <;> simp [force_manual_mode, apply_temperature, hm]
  · intro ok st hm s
    simp [toggle_bluelight, hm]
  · intro ok hour w st hm s
    simp [toggle_auto_mode, hm]
  · intro ok st hm s
    simp [force_manual_mode, hm]
  · intro ok hour w st h
    rcases h with hm | he
    · simp [update_temperature, hm]
    · by_cases hm : st.manual = false <;> simp [update_temperature, hm, he]
  · intro ok hour w st hne
    by_cases hm : st.manual = false
    · by_cases he : calculate_temperature st hour w = st.last_temp
      · simp [update_temperature, hm, he] at hne
      · cases ok
        · simp [update_temperature, hm, he, apply_temperature] at hne
        · simp [update_temperature, hm, he, apply_temperature]
    · simp [update_temperature, hm] at hne

/-- Witness for C3's amended theorem: `toggle_bluelight` in manual mode
persists its final state. -/
theorem reload_and_persist_discipline_witness :
    Event.save (toggle_bluelight true ⟨true, false, 4500⟩).1 ∈
      (toggle_bluelight true ⟨true, false, 4500⟩).2 :=
  reload_and_persist_discipline.2.2.2.2.2.1 true ⟨true, false, 4500⟩ rfl

/-- C4: reconcile is a no-op when the computed temperature equals
`last_temp` or when the mode is manual, and any applier invocation in its
trace implies automatic mode with a differing computed temperature. -/
theorem update_temperature_frame (ok : Bool) (hour : Nat) (w : Option Weather)
    (st : PersistedState) :
    (calculate_temperature st hour w = st.last_temp →
      update_temperature ok hour w st = (st, [])) ∧
    (st.manual = true → update_temperature ok hour w st = (st, [])) ∧
    (∀ t, Event.applier t ∈ (update_temperature ok hour w st).2 →
      st.manual = false ∧ calculate_temperature st hour w ≠ st.last_temp) := by
  refine ⟨?_, ?_, ?_⟩
  · intro he
    by_cases hm : st.manual = false <;> simp [update_temperature, hm, he]
  · intro hm
    simp [update_temperature, hm]
  · intro t ht
    by_cases hm : st.manual = false <;>
      by_cases he : calculate_temperature st hour w = st.last_temp <;>
      simp [update_temperature, hm, he] at ht
    exact ⟨hm, he⟩

/-- Witness for C4 in manual mode. -/
theorem update_temperature_frame_witness :
    update_temperature true 12 none ⟨true, false, 4500⟩ = (⟨true, false, 4500⟩, []) :=
  (update_temperature_frame true 12 none ⟨true, false, 4500⟩).2.1 rfl

/-- C5: in automatic mode, `toggle_bluelight` only emits the rejection
notification and returns the state untouched — no save, no applier call. -/
theorem toggle_bluelight_rejected (ok : Bool) (st : PersistedState)
    (h : st.manual = false) :
    toggle_bluelight ok st =
      (st, [Event.notify "Cannot toggle blue light filter in automatic mode. Switch to manual mode first."]) := by
  simp [toggle_bluelight, h]

/-- Witness for C5 at the default (automatic) state. -/
theorem toggle_bluelight_rejected_witness :
    toggle_bluelight true default_state =
      (default_state,
       [Event.notify "Cannot toggle blue light filter in automatic mode. Switch to manual mode first."]) :=
  toggle_bluelight_rejected true default_state rfl

/-- The spec's mode invariant: the filter flag is off whenever the mode is
automatic. -/
def state_inv (s : PersistedState) : Prop :=
  s.manual = false → s.bluelight = false

instance (s : PersistedState) : Decidable (state_inv s) := by
  unfold state_inv
  infer_instance

/-- C6: the invariant `manual = false → bluelight = false` holds in the
default state and is preserved by every ModeController operation, so every
state reachable from the default through these operations satisfies it.
(`toggle_manual_mode` acts on what it reloads from the state file, so its
hypothesis constrains the reloaded record.) -/
theorem bluelight_mode_invariant :
    state_inv default_state ∧
    (∀ ok st, state_inv st → state_inv (toggle_bluelight ok st).1) ∧
    (∀ ok hour w file, state_inv (load_state file).1 →
      state_inv (toggle_manual_mode ok hour w file).1) ∧
    (∀ ok hour w st, state_inv st → state_inv (toggle_auto_mode ok hour w st).1) ∧
    (∀ ok st, state_inv st → state_inv (force_manual_mode ok st).1) ∧
    (∀ ok hour w st, state_inv st → state_inv (update_temperature ok hour w st).1) := by
  refine ⟨by decide, ?_, ?_, ?_, ?_, ?_⟩
  · intro ok st h
    by_cases hm : st.manual = false
    · simpa [toggle_bluelight, hm] using h
    · intro hfalse
      exfalso
      revert hfalse
      cases ok <;> simp [toggle_bluelight, apply_temperature, hm]
  · intro ok hour w file _
    by_cases hm : ((load_state file).1).manual
    · by_cases he : calculate_temperature
          { (load_state file).1 with manual := false, bluelight := false } hour w =
          ((load_state file).1).last_temp <;> cases ok <;>
        simp [toggle_manual_mode, state_inv, hm, update_temperature,
          apply_temperature, he]
    · cases ok <;> simp [toggle_manual_mode, state_inv, hm, apply_temperature]
  · intro ok hour w st h
    by_cases hm : st.manual
    · by_cases he : calculate_temperature { st with manual := false, bluelight := false } hour w =
        st.last_temp <;> cases ok <;>
        simp [toggle_auto_mode, state_inv, hm, update_temperature,
          apply_temperature, he]
    · simpa [toggle_auto_mode, hm] using h
  · intro ok st h
    by_cases hm : st.manual = false
    · cases ok <;>
        simp [force_manual_mode, state_inv, hm, apply_temperature]
    · simpa [force_manual_mode, hm] using h
  · intro ok hour w st h
    by_cases hm : st.manual = false
    · by_cases he : calculate_temperature st hour w = st.last_temp <;> cases ok <;>
        simp_all [update_temperature, apply_temperature, state_inv, hm, he]
    · simpa [update_temperature, hm] using h

/-- Witness for C6: the invariant is preserved by `toggle_bluelight` at the
default state. -/
theorem bluelight_mode_invariant_witness :
    state_inv (toggle_bluelight true default_state).1 :=
  bluelight_mode_invariant.2.1 true default_state (by decide)

/-- C8 counterexample: at the unrecognized command `bogus` the program
prints the usage line and exits with code 0, not a nonzero code as the
claim states. -/
theorem dispatch_unknown_counterexample :
    dispatch true 12 none .missing "bogus" none default_state =
      (default_state,
       [Event.echo "Usage: ./blue-light.py [toggle|manual|auto|force-manual|refresh-location|test <temp>|status]"],
       0) := by
  rfl

/-- C8 (amended): an unrecognized command prints the usage message, exits
with code 0 (the script never calls `sys.exit` on this path) and mutates
no state; `test` with a non-integer argument prints the error message,
exits 0, and mutates no state. -/
theorem dispatch_bad_input :
    (∀ ok hour w file cmd a2 st,
      cmd ∉
        (["toggle", "manual", "auto", "force-manual", "refresh-location",
          "test", "status"] : List String) →
      dispatch ok hour w file cmd a2 st =
        (st,
         [Event.echo "Usage: ./blue-light.py [toggle|manual|auto|force-manual|refresh-location|test <temp>|status]"],
         0)) ∧
    (∀ ok hour w file cmd st, cmd = "test" →
      dispatch ok hour w file cmd (some none) st =
        (st, [Event.echo "Invalid temperature value"], 0)) := by
  constructor
  · intro ok hour w file cmd a2 st h
    simp only [List.mem_cons, List.mem_singleton, not_or] at h
    obtain ⟨h1, h2, h3, h4, h5, h6, h7⟩ := h
    simp [dispatch, h1, h2, h3, h4, h5, h6, h7]
  · intro ok hour w file cmd st h
    simp [dispatch, h]

/-- Witness for C8's amended theorem: `test` with an unparsable argument. -/
theorem dispatch_bad_input_witness :
    dispatch true 0 none .missing "test" (some none) default_state =
      (default_state, [Event.echo "Invalid temperature value"], 0) :=
  dispatch_bad_input.2 true 0 none .missing "test" default_state rfl

/-- C9: in manual mode with a failing applier launch, `toggle_bluelight`
still flips the filter flag and persists it, while `last_temp` keeps its
prior value in the result and in every saved record — the persisted flag
and the actually applied temperature diverge. -/
theorem toggle_bluelight_not_atomic (st : PersistedState)
    (h : st.manual = true) :
    (toggle_bluelight false st).1 = ⟨true, !st.bluelight, st.last_temp⟩ ∧
    Event.save ⟨true, !st.bluelight, st.last_temp⟩ ∈ (toggle_bluelight false st).2 ∧
    (∀ s, Event.save s ∈ (toggle_bluelight false st).2 →
      s.last_temp = st.last_temp) := by
  obtain ⟨m, b, l⟩ := st
  cases h
  refine ⟨rfl, ?_, ?_⟩
  · simp [toggle_bluelight, apply_temperature]
  · intro s hs
    simp [toggle_bluelight, apply_temperature] at hs
    simp [hs]

/-- Witness for C9 at a manual state. -/
theorem toggle_bluelight_not_atomic_witness :
    (toggle_bluelight false ⟨true, false, 4500⟩).1 = ⟨true, true, 4500⟩ ∧
    Event.save ⟨true, true, 4500⟩ ∈ (toggle_bluelight false ⟨true, false, 4500⟩).2 ∧
    (∀ s, Event.save s ∈ (toggle_bluelight false ⟨true, false, 4500⟩).2 →
      s.last_temp = 4500) :=
  toggle_bluelight_not_atomic ⟨true, false, 4500⟩ rfl

/-- C10: the `test` command routes straight into `apply_temperature`,
leaving `manual` and `bluelight` untouched; on launch success it sets and
persists `last_temp = k`, and a later reconcile in automatic mode whose
computed temperature equals `k` performs nothing at all. -/
theorem test_command_effect (ok : Bool) (hour : Nat) (w : Option Weather)
    (file : StateFileContent) (k : Int) (st : PersistedState) :
    dispatch ok hour w file "test" (some (some k)) st =
      ((apply_temperature ok k st).1, (apply_temperature ok k st).2, 0) ∧
    (apply_temperature ok k st).1.manual = st.manual ∧
    (apply_temperature ok k st).1.bluelight = st.bluelight ∧
    (ok = true → (apply_temperature ok k st).1.last_temp = k ∧
      Event.save (apply_temperature ok k st).1 ∈ (apply_temperature ok k st).2) ∧
    (∀ ok2 hour2 w2, st.manual = false →
      calculate_temperature (apply_temperature ok k st).1 hour2 w2 = k →
      ok = true →
      update_temperature ok2 hour2 w2 (apply_temperature ok k st).1 =
        ((apply_temperature ok k st).1, [])) := by
  refine ⟨rfl, ?_, ?_, ?_, ?_⟩
  · cases ok <;> simp [apply_temperature]
  · cases ok <;> simp [apply_temperature]
  · intro hok
    subst hok
    simp [apply_temperature]
  · intro ok2 hour2 w2 hm hc hok
    subst hok
    have hmanual : (apply_temperature true k st).1.manual = false := by
      simpa [apply_temperature] using hm
    have hlast : (apply_temperature true k st).1.last_temp = k := by
      simp [apply_temperature]
    simp [update_temperature, hmanual, hc, hlast]

/-- Witness for C10: `test 6500` at the default state, followed by a
daytime reconcile with no weather data (computed temperature 6500). -/
theorem test_command_effect_witness :
    update_temperature true 12 none (apply_temperature true 6500 default_state).1 =
      ((apply_temperature true 6500 default_state).1, []) :=
  (test_command_effect true 12 none .missing 6500 default_state).2.2.2.2
    true 12 none rfl (by decide) rfl

end HyprBlueLight
